import Mathlib

/-!
Verification of the Dungeons-Daemons turn-resolution core.

This file shallowly embeds the parts of the repository that the checked
claims are about:

* `game_state.py` — `Character.__init__` (modelled as `Character.init`),
  `Character.get_ability_modifier`, `Character.to_dict`, `Character.from_dict`,
  `GameState.add_to_history`, `GameState.prune_history`;
* `main.py` — `DungeonsAndDaemons.update_game_state`;
* `character_data.py` — `calculate_starting_hp` and the class hit-die table;
* `dice_system.py` — `DiceRoller.parse_dice_notation`, `DiceRoller.roll_stats`,
  `DiceRoller.get_modifier`;
* `ai_manager.py` — `AIManager.get_ai_response`, `AIManager._get_fallback_response`
  and the one-way fallback-mode flag.

Python integers are modelled as `Int` (no overflow in CPython), Python lists
as `List`, dictionaries with a fixed key set as structures, and the two
non-deterministic sources (`random.randint` streams and `random.choice`)
as explicit parameters: a die stream `Nat → Int` and a choice index `Nat`
taken modulo the length of the candidate list.
-/

/-- Python floor division `//` on integers: rounds toward negative infinity. -/
def pyFloorDiv (a b : Int) : Int := Int.fdiv a b

/-- Python slice `l[-k:]`.  For `k = 0` the slice is `l[0:]`, i.e. the whole
list; for `0 < k ≤ len(l)` it is the last `k` elements. -/
def pySliceLast {α : Type} (k : Nat) (l : List α) : List α :=
  if k = 0 then l else l.drop (l.length - k)

/-- Ability modifier, from `Character.get_ability_modifier` in
`game_state.py`: `(ability_score - 10) // 2`. -/
def get_ability_modifier (ability_score : Int) : Int :=
  pyFloorDiv (ability_score - 10) 2

/-- Ability modifier, from `DiceRoller.get_modifier` in `dice_system.py`:
`(ability_score - 10) // 2`. -/
def get_modifier (ability_score : Int) : Int :=
  pyFloorDiv (ability_score - 10) 2

/-- The player character, with the full field set written by
`Character.to_dict` in `game_state.py`.  The Python `equipment` dict is
modelled as an association list. -/
structure Character where
  name : String
  race : String
  character_class : String
  level : Int
  background : String
  alignment : String
  strength : Int
  dexterity : Int
  constitution : Int
  intelligence : Int
  wisdom : Int
  charisma : Int
  hp : Int
  max_hp : Int
  armor_class : Int
  proficiency_bonus : Int
  skill_proficiencies : List String
  saving_throw_proficiencies : List String
  inventory : List String
  equipment : List (String × String)
  experience_points : Int
  gold_pieces : Int
deriving DecidableEq

/-- Saved character record: the dictionary produced by `Character.to_dict`
and consumed by `Character.from_dict` (all keys present). -/
structure CharacterRecord where
  name : String
  race : String
  character_class : String
  level : Int
  background : String
  alignment : String
  strength : Int
  dexterity : Int
  constitution : Int
  intelligence : Int
  wisdom : Int
  charisma : Int
  hp : Int
  max_hp : Int
  armor_class : Int
  proficiency_bonus : Int
  skill_proficiencies : List String
  saving_throw_proficiencies : List String
  inventory : List String
  equipment : List (String × String)
  experience_points : Int
  gold_pieces : Int
deriving DecidableEq

/-- Constructor logic of `Character.__init__` in `game_state.py`.  The
Python optional-argument pattern `x or default` treats `None` and empty
collections alike, so empty lists stand for both here.  The key branch:
when the passed `hp` and `max_hp` are both exactly 100 (the defaults),
both are discarded and recomputed as `max(1, 8 + con_modifier)`. -/
def Character.init (name : String) (hp max_hp : Int) (inventory : List String)
    (strength dexterity constitution intelligence wisdom charisma : Int)
    (race character_class : String) (level : Int) (background alignment : String)
    (armor_class proficiency_bonus : Int)
    (skill_proficiencies saving_throw_proficiencies : List String)
    (equipment : List (String × String))
    (experience_points gold_pieces : Int) : Character :=
  let con_modifier := get_ability_modifier constitution
  let base_hp := 8 + con_modifier
  let real_hp : Int × Int :=
    if hp = 100 ∧ max_hp = 100 then (max 1 base_hp, max 1 base_hp) else (hp, max_hp)
  { name := name
    race := race
    character_class := character_class
    level := level
    background := background
    alignment := alignment
    strength := strength
    dexterity := dexterity
    constitution := constitution
    intelligence := intelligence
    wisdom := wisdom
    charisma := charisma
    hp := real_hp.1
    max_hp := real_hp.2
    armor_class := armor_class
    proficiency_bonus := proficiency_bonus
    skill_proficiencies := skill_proficiencies
    saving_throw_proficiencies :=
      if saving_throw_proficiencies = [] then ["Strength", "Constitution"]
      else saving_throw_proficiencies
    inventory :=
      if inventory = [] then ["Backpack", "Bedroll", "Rations (5 days)"]
      else inventory
    equipment :=
      if equipment = [] then
        [("armor", "Leather Armor"), ("weapon", "Longsword"),
         ("shield", "Shield"), ("tools", "")]
      else equipment
    experience_points := experience_points
    gold_pieces := gold_pieces }

/-- Serialization `Character.to_dict` from `game_state.py`. -/
def Character.to_dict (c : Character) : CharacterRecord :=
  { name := c.name
    race := c.race
    character_class := c.character_class
    level := c.level
    background := c.background
    alignment := c.alignment
    strength := c.strength
    dexterity := c.dexterity
    constitution := c.constitution
    intelligence := c.intelligence
    wisdom := c.wisdom
    charisma := c.charisma
    hp := c.hp
    max_hp := c.max_hp
    armor_class := c.armor_class
    proficiency_bonus := c.proficiency_bonus
    skill_proficiencies := c.skill_proficiencies
    saving_throw_proficiencies := c.saving_throw_proficiencies
    inventory := c.inventory
    equipment := c.equipment
    experience_points := c.experience_points
    gold_pieces := c.gold_pieces }

/-- Deserialization `Character.from_dict` from `game_state.py`: every stored
field is forwarded to the constructor, so the `__init__` default-HP branch
re-runs on load. -/
def Character.from_dict (d : CharacterRecord) : Character :=
  Character.init d.name d.hp d.max_hp d.inventory
    d.strength d.dexterity d.constitution d.intelligence d.wisdom d.charisma
    d.race d.character_class d.level d.background d.alignment
    d.armor_class d.proficiency_bonus
    d.skill_proficiencies d.saving_throw_proficiencies
    d.equipment d.experience_points d.gold_pieces

/-- Game state from `game_state.py`: one player, the story history, the
current location and the history-window size. -/
structure GameState where
  player : Character
  story_history : List String
  current_location : String
  max_history_turns : Nat
deriving DecidableEq

/-- The narrative-response dictionary: the five keys every reply carries
after default-filling (`ai_manager.py`). -/
structure NarrativeResponse where
  narrative : String
  location : String
  hp_change : Int
  items_added : List String
  items_removed : List String
deriving DecidableEq

/-- History append from `GameState.add_to_history`: one turn appends the
pair `"Player: …"`, `"DM: …"`. -/
def add_to_history (gs : GameState) (user_action ai_narrative : String) : GameState :=
  { gs with story_history :=
      gs.story_history ++ ["Player: " ++ user_action, "DM: " ++ ai_narrative] }

/-- History pruning from `GameState.prune_history`: when the history is
longer than `max_turns * 2`, keep the Python slice `history[-(max_turns*2):]`. -/
def prune_history (gs : GameState) (max_turns : Nat) : GameState :=
  if gs.story_history.length > max_turns * 2 then
    { gs with story_history := pySliceLast (max_turns * 2) gs.story_history }
  else gs

/-- Turn-state reconciliation `DungeonsAndDaemons.update_game_state` from
`main.py`: clamp HP when `hp_change ≠ 0`, overwrite the location when
non-empty, dedup-append added items, erase the first occurrence of removed
items, append the history pair, prune with the settings window. -/
def update_game_state (settings_max : Nat) (gs : GameState)
    (ai_response : NarrativeResponse) (user_action : String) : GameState :=
  let p := gs.player
  let hp1 :=
    if ai_response.hp_change ≠ 0 then
      max 0 (min (p.hp + ai_response.hp_change) p.max_hp)
    else p.hp
  let loc1 :=
    if ai_response.location ≠ "" then ai_response.location else gs.current_location
  let inv1 := ai_response.items_added.foldl
    (fun inv item => if item ≠ "" ∧ item ∉ inv then inv ++ [item] else inv)
    p.inventory
  let inv2 := ai_response.items_removed.foldl
    (fun inv item => if item ∈ inv then inv.erase item else inv) inv1
  let gs1 :=
    { gs with
        player := { p with hp := hp1, inventory := inv2 }
        current_location := loc1 }
  prune_history (add_to_history gs1 user_action ai_response.narrative) settings_max

/-- Class hit-die table from `character_data.py` (`CLASSES[*].hit_die`). -/
def CLASSES_hit_die : List (String × Int) :=
  [("Fighter", 10), ("Wizard", 6), ("Rogue", 8),
   ("Cleric", 8), ("Ranger", 10), ("Barbarian", 12)]

/-- Starting HP from `calculate_starting_hp` in `character_data.py`:
`hit_die + constitution_modifier` for a known class, `8` otherwise.
No lower bound is applied. -/
def calculate_starting_hp (character_class : String)
    (constitution_modifier : Int) : Int :=
  match CLASSES_hit_die.lookup character_class with
  | none => 8
  | some hit_die => hit_die + constitution_modifier

/-- Digit run to number, as Python `int` on a digit string. -/
def digitsToNat (l : List Char) : Nat :=
  l.foldl (fun n c => 10 * n + (c.toNat - '0'.toNat)) 0

/-- Normalization step of `DiceRoller.parse_dice_notation`:
`notation.replace(" ", "").lower()`. -/
def normalizeDice (s : String) : List Char :=
  (s.toList.filter (fun c => c ≠ ' ')).map Char.toLower

/-- Dice notation parser `DiceRoller.parse_dice_notation` from
`dice_system.py`.  The Python code applies `re.match` with pattern
`(?:(\d+))?d(\d+)(?:([+-])(\d+))?`, which anchors at the start only:
it consumes the maximal digit run as the count (the run must be followed
by a literal `d`), a non-empty digit run as the sides, an optional signed
digit run as the modifier, and ignores any trailing text.  A failed match
raises `ValueError`, modelled as `none`. -/
def parse_dice_notation (s : String) : Option (Nat × Nat × Int) :=
  let l := normalizeDice s
  let cnt := l.takeWhile Char.isDigit
  match l.dropWhile Char.isDigit with
  | [] => none
  | c0 :: r2 =>
    if c0 = 'd' then
      let sds := r2.takeWhile Char.isDigit
      if sds = [] then none
      else
        let count := if cnt = [] then 1 else digitsToNat cnt
        let sides := digitsToNat sds
        let modifier : Int :=
          match r2.dropWhile Char.isDigit with
          | c :: r4 =>
            if c = '+' ∨ c = '-' then
              let mds := r4.takeWhile Char.isDigit
              if mds = [] then 0
              else if c = '+' then (digitsToNat mds : Int) else -(digitsToNat mds : Int)
            else 0
          | [] => 0
        some (count, sides, modifier)
    else none

/-- Modelled from the spec grammar of §4.1: the normalized text begins with
optional digits, a literal `d`, and at least one digit (the optional signed
modifier and any residual text are both covered by `rest`, since the regex
modifier group is optional and the match is not end-anchored). -/
def specGrammarMatch (l : List Char) : Prop :=
  ∃ cnt sds rest : List Char,
    l = cnt ++ 'd' :: (sds ++ rest) ∧ cnt.all Char.isDigit ∧
    sds ≠ [] ∧ sds.all Char.isDigit

/-- Canonical ability order used by `roll_stats` and the character sheet. -/
def stat_names : List String :=
  ["Strength", "Dexterity", "Constitution", "Intelligence", "Wisdom", "Charisma"]

/-- Standard-array values assigned by the `"array"` branch of `roll_stats`. -/
def array_values : List Int := [15, 14, 13, 12, 10, 8]

/-- Ability-score generator `DiceRoller.roll_stats` from `dice_system.py`.
The `random.randint(1, 6)` stream is the explicit parameter `die`; the
result is the insertion-ordered dictionary.  Branches: `"4d6_drop_lowest"`
sorts four dice descending and sums the top three; `"3d6"` sums three dice;
`"point_buy"` assigns the constant 8; the loop adds nothing for `"array"`
(and for any unrecognized method), and after the loop the `"array"` method
assigns the fixed values in canonical order. -/
def roll_stats (method : String) (die : Nat → Int) : List (String × Int) :=
  let loopStats :=
    if method = "4d6_drop_lowest" then
      stat_names.mapIdx (fun i s =>
        let rolls := [die (4 * i), die (4 * i + 1), die (4 * i + 2), die (4 * i + 3)]
        (s, ((rolls.mergeSort (fun a b => decide (b ≤ a))).take 3).sum))
    else if method = "3d6" then
      stat_names.mapIdx (fun i s => (s, die (3 * i) + die (3 * i + 1) + die (3 * i + 2)))
    else if method = "point_buy" then
      stat_names.map (fun s => (s, (8 : Int)))
    else []
  if method = "array" then stat_names.zip array_values else loopStats

/-- Python `s.lower().strip()` applied to the user input in
`AIManager._get_fallback_response`, on the character-list view. -/
def pyAction (s : String) : List Char :=
  let lowered := s.toList.map Char.toLower
  ((lowered.dropWhile Char.isWhitespace).reverse.dropWhile Char.isWhitespace).reverse

/-- Python substring test `w in action`. -/
def containsSub (action : List Char) (w : String) : Bool :=
  decide (w.toList <:+: action)

/-- Python `any(word in action for word in words)`. -/
def matchesAny (action : List Char) (words : List String) : Bool :=
  words.any (fun w => containsSub action w)

/-- Keyword list of the attack branch of `_get_fallback_response`. -/
def attack_words : List String := ["attack", "fight", "hit", "strike"]

/-- Keyword list of the heal branch of `_get_fallback_response`. -/
def heal_words : List String := ["heal", "potion", "drink", "use potion"]

/-- Keyword list of the explore branch of `_get_fallback_response`. -/
def explore_words : List String := ["explore", "look", "search", "examine"]

/-- Keyword list of the travel branch of `_get_fallback_response`. -/
def travel_words : List String := ["north", "south", "east", "west", "go", "move", "travel"]

/-- Fixed location pool of the travel branch of `_get_fallback_response`. -/
def new_locations : List String :=
  ["Forest Path", "Mountain Trail", "Village Square", "Ancient Ruins", "Mystic Cave"]

/-- Deterministic narrator `AIManager._get_fallback_response` from
`ai_manager.py`.  The branches are tested in source order on the lowered,
stripped input; `random.choice` over the filtered location pool is modelled
by the index `pick` taken modulo the pool length. -/
def get_fallback_response (gs : GameState) (user_input : String) (pick : Nat) :
    NarrativeResponse :=
  let action := pyAction user_input
  if matchesAny action attack_words then
    { narrative := gs.player.name ++ " swings their weapon! You deal damage to your opponent."
      location := gs.current_location
      hp_change := -5
      items_added := []
      items_removed := [] }
  else if matchesAny action heal_words then
    if "Health Potion" ∈ gs.player.inventory then
      { narrative := gs.player.name ++ " drinks a health potion and feels much better!"
        location := gs.current_location
        hp_change := 20
        items_added := []
        items_removed := ["Health Potion"] }
    else
      { narrative := "You search your belongings but find no healing items."
        location := gs.current_location
        hp_change := 0
        items_added := []
        items_removed := [] }
  else if matchesAny action explore_words then
    { narrative := "You explore the " ++ gs.current_location ++
        " carefully. The area seems peaceful for now, but you sense adventure awaits."
      location := gs.current_location
      hp_change := 0
      items_added := []
      items_removed := [] }
  else if matchesAny action travel_words then
    let candidates := new_locations.filter (fun loc => loc ≠ gs.current_location)
    let new_location := candidates.getD (pick % candidates.length) gs.current_location
    { narrative := "You travel onward and arrive at the " ++ new_location ++
        ". The journey was uneventful but you feel ready for whatever comes next."
      location := new_location
      hp_change := 0
      items_added := []
      items_removed := [] }
  else
    { narrative := "You attempt to " ++ String.mk action ++
        ". The world around you responds in mysterious ways, and your adventure continues."
      location := gs.current_location
      hp_change := 0
      items_added := []
      items_removed := [] }

/-- Raw backend reply: a JSON object that may omit any of the five keys. -/
structure RawReply where
  narrative : Option String
  location : Option String
  hp_change : Option Int
  items_added : Option (List String)
  items_removed : Option (List String)

/-- Outcome of one narrative-backend invocation inside `get_ai_response`:
a parsed JSON reply, a `json.JSONDecodeError`, or any other exception
(transport failure included). -/
inductive BackendOutcome where
  | reply (raw : RawReply)
  | badJson
  | failure

/-- Default filling of missing keys in an otherwise-valid backend reply
(`AIManager._get_default_value`). -/
def fill_defaults (r : RawReply) : NarrativeResponse :=
  { narrative := r.narrative.getD "The adventure continues..."
    location := r.location.getD "Unknown"
    hp_change := r.hp_change.getD 0
    items_added := r.items_added.getD []
    items_removed := r.items_removed.getD [] }

/-- Result of one `get_ai_response` call: the returned dictionary, the
`fallback_mode` flag after the call, and whether the fallback resolver
produced the response. -/
structure AIResult where
  response : NarrativeResponse
  fallback_mode : Bool
  used_fallback : Bool

/-- One call of `AIManager.get_ai_response` from `ai_manager.py`, given the
`fallback_mode` flag before the call and the backend outcome the call would
observe.  In fallback mode the backend is never consulted; otherwise a bad
JSON reply or any exception sets `fallback_mode = True` and answers the same
turn from the fallback resolver. -/
def get_ai_response (fallback_mode : Bool) (outcome : BackendOutcome)
    (gs : GameState) (user_input : String) (pick : Nat) : AIResult :=
  if fallback_mode then
    { response := get_fallback_response gs user_input pick
      fallback_mode := true
      used_fallback := true }
  else
    match outcome with
    | .reply raw =>
      { response := fill_defaults raw
        fallback_mode := false
        used_fallback := false }
    | .badJson =>
      { response := get_fallback_response gs user_input pick
        fallback_mode := true
        used_fallback := true }
    | .failure =>
      { response := get_fallback_response gs user_input pick
        fallback_mode := true
        used_fallback := true }

/-- Whether a backend outcome is one of the error cases that flip the
fallback flag. -/
def isBackendError : BackendOutcome → Bool
  | .reply _ => false
  | .badJson => true
  | .failure => true

/-- Evolution of the `fallback_mode` flag over one call. -/
def stepMode (m : Bool) (o : BackendOutcome) : Bool :=
  if m then true else isBackendError o

/-- The `fallback_mode` flag after a session processes a sequence of
backend outcomes, starting from flag `m`. -/
def modeAfter (m : Bool) (trace : List BackendOutcome) : Bool :=
  trace.foldl stepMode m

theorem add_to_history_player (gs : GameState) (a b : String) :
    (add_to_history gs a b).player = gs.player := rfl

theorem prune_history_player (gs : GameState) (m : Nat) :
    (prune_history gs m).player = gs.player := by
  unfold prune_history
  split <;> rfl

/-- C9: for every integer ability score `s`, both modifier functions compute
`floor((s - 10) / 2)` with flooring toward negative infinity; a score of 9
yields −1, 10 yields 0, 20 yields 5. -/
theorem ability_modifier_is_floor (s : Int) :
    get_ability_modifier s = ⌊((s : ℚ) - 10) / 2⌋ ∧
    get_modifier s = ⌊((s : ℚ) - 10) / 2⌋ ∧
    get_ability_modifier 9 = -1 ∧
    get_ability_modifier 10 = 0 ∧
    get_ability_modifier 20 = 5 := by
  have key : ⌊((s : ℚ) - 10) / 2⌋ = pyFloorDiv (s - 10) 2 := by
    unfold pyFloorDiv
    rw [Int.fdiv_eq_ediv _ (by norm_num)]
    simpa using Rat.floor_intCast_div_natCast (s - 10) 2
  exact ⟨key.symm, key.symm, by decide, by decide, by decide⟩

/-- C2: when a narrative response carries a nonzero `hp_change`, applying it
sets the character's HP to the two-sided clamp of `hp + hp_change` into
`[0, max_hp]`, and leaves `max_hp` untouched (overheal is discarded). -/
theorem update_game_state_clamps_hp (smax : Nat) (gs : GameState)
    (resp : NarrativeResponse) (ua : String)
    (h : resp.hp_change ≠ 0) :
    (update_game_state smax gs resp ua).player.hp
      = max 0 (min (gs.player.hp + resp.hp_change) gs.player.max_hp) ∧
    (update_game_state smax gs resp ua).player.max_hp = gs.player.max_hp := by
  unfold update_game_state
  rw [prune_history_player, add_to_history_player]
  simp [h]

/-- Test character used by the concrete witnesses. -/
def baseChar : Character :=
  { name := "Hero"
    race := "Human"
    character_class := "Fighter"
    level := 1
    background := "Folk Hero"
    alignment := "Neutral Good"
    strength := 10
    dexterity := 10
    constitution := 10
    intelligence := 10
    wisdom := 10
    charisma := 10
    hp := 10
    max_hp := 20
    armor_class := 10
    proficiency_bonus := 2
    skill_proficiencies := []
    saving_throw_proficiencies := ["Strength", "Constitution"]
    inventory := []
    equipment := [("armor", "Leather Armor")]
    experience_points := 0
    gold_pieces := 0 }

/-- Test state used by the concrete witnesses. -/
def baseState : GameState :=
  { player := baseChar
    story_history := []
    current_location := "Village Square"
    max_history_turns := 10 }

/-- Overheal test response: `hp_change = +50`. -/
def respPlus50 : NarrativeResponse :=
  { narrative := "You rest.", location := "", hp_change := 50,
    items_added := [], items_removed := [] }

/-- Overkill test response: `hp_change = -999`. -/
def respMinus999 : NarrativeResponse :=
  { narrative := "You are crushed.", location := "", hp_change := -999,
    items_added := [], items_removed := [] }

theorem update_game_state_clamps_hp_witness :
    (update_game_state 10 baseState respPlus50 "rest").player.hp = 20 ∧
    (update_game_state 10 baseState respMinus999 "ouch").player.hp = 0 := by
  constructor
  · have h := update_game_state_clamps_hp 10 baseState respPlus50 "rest" (by decide)
    rw [h.1]
    decide
  · have h := update_game_state_clamps_hp 10 baseState respMinus999 "ouch" (by decide)
    rw [h.1]
    decide

/-- C6 counterexample: `calculate_starting_hp` applies no floor at 1 — a
Wizard (hit die 6) with constitution modifier −10 gets starting HP −4. -/
theorem calculate_starting_hp_no_floor_counterexample :
    calculate_starting_hp "Wizard" (-10) = -4 ∧
    calculate_starting_hp "Wizard" (-10) < 1 := by
  decide

/-- C6 amended: for every class in the class table, starting HP is exactly
the class hit die plus the constitution modifier, with no lower bound
applied; it is at least 1 whenever the modifier is at least −5 (every
constitution score ≥ 1), because the smallest hit die is 6. -/
theorem calculate_starting_hp_amended (cls : String) (cm hd : Int)
    (h : CLASSES_hit_die.lookup cls = some hd) :
    calculate_starting_hp cls cm = hd + cm ∧
    (-5 ≤ cm → 1 ≤ calculate_starting_hp cls cm) := by
  have h6 : 6 ≤ hd := by
    simp only [CLASSES_hit_die, List.lookup] at h
    repeat' split at h
    all_goals first
      | (injection h with h; omega)
      | cases h
  have hcalc : calculate_starting_hp cls cm = hd + cm := by
    unfold calculate_starting_hp
    rw [h]
  refine ⟨hcalc, fun hcm => ?_⟩
  rw [hcalc]
  omega

theorem calculate_starting_hp_amended_witness :
    calculate_starting_hp "Fighter" (-3) = 7 ∧
    1 ≤ calculate_starting_hp "Fighter" (-3) := by
  have h := calculate_starting_hp_amended "Fighter" (-3) 10 (by decide)
  refine ⟨?_, h.2 (by norm_num)⟩
  rw [h.1]
  norm_num

/-- C3: after a completed turn appends the player/DM pair, pruning with a
window of at least one turn retains exactly the most recent
`max_history_turns * 2` entries whenever the appended history is longer
than that, as the final segment of the appended history (so the surviving
entries keep their original relative order). -/
theorem prune_history_keeps_recent (gs : GameState) (m : Nat) (p d : String)
    (hm : 1 ≤ m)
    (hlen : (add_to_history gs p d).story_history.length > m * 2) :
    (prune_history (add_to_history gs p d) m).story_history
      = (add_to_history gs p d).story_history.drop
          ((add_to_history gs p d).story_history.length - m * 2) ∧
    ((prune_history (add_to_history gs p d) m).story_history).length = m * 2 ∧
    (prune_history (add_to_history gs p d) m).story_history
      <:+ (add_to_history gs p d).story_history := by
  have hm2 : m * 2 ≠ 0 := by omega
  have hdef : (prune_history (add_to_history gs p d) m).story_history
      = (add_to_history gs p d).story_history.drop
          ((add_to_history gs p d).story_history.length - m * 2) := by
    unfold prune_history pySliceLast
    rw [if_pos hlen, if_neg hm2]
  refine ⟨hdef, ?_, ?_⟩
  · rw [hdef, List.length_drop]
    omega
  · rw [hdef]
    exact List.drop_suffix _ _

/-- Fifth-turn test state for the pruning witness: two turns of history
survive from the earlier pruned turns. -/
def gsTurn4 : GameState :=
  { baseState with
      story_history := ["Player: a3", "DM: b3", "Player: a4", "DM: b4"]
      max_history_turns := 2 }

theorem prune_history_keeps_recent_witness :
    (prune_history (add_to_history gsTurn4 "a5" "b5") 2).story_history
      = ["Player: a4", "DM: b4", "Player: a5", "DM: b5"] ∧
    ((prune_history (add_to_history gsTurn4 "a5" "b5") 2).story_history).length = 4 := by
  have h := prune_history_keeps_recent gsTurn4 2 "a5" "b5" (by decide) (by decide)
  refine ⟨?_, h.2.1⟩
  rw [h.1]
  decide

theorem update_game_state_inventory_unchanged (smax : Nat) (gs : GameState)
    (resp : NarrativeResponse) (ua : String)
    (ha : resp.items_added = []) (hr : resp.items_removed = []) :
    (update_game_state smax gs resp ua).player.inventory = gs.player.inventory := by
  unfold update_game_state
  rw [prune_history_player, add_to_history_player]
  simp [ha, hr]

/-- C7: in fallback mode, an input that matches a heal keyword (and no
attack keyword, which is tested first) heals +20 and consumes one
"Health Potion" when the inventory holds one, and otherwise changes no HP
and no items — applying the response leaves the inventory unchanged. -/
theorem fallback_heal (gs : GameState) (input : String) (pick smax : Nat)
    (hatk : matchesAny (pyAction input) attack_words = false)
    (hheal : matchesAny (pyAction input) heal_words = true) :
    ("Health Potion" ∈ gs.player.inventory →
      (get_fallback_response gs input pick).hp_change = 20 ∧
      (get_fallback_response gs input pick).items_removed = ["Health Potion"]) ∧
    ("Health Potion" ∉ gs.player.inventory →
      (get_fallback_response gs input pick).hp_change = 0 ∧
      (get_fallback_response gs input pick).items_added = [] ∧
      (get_fallback_response gs input pick).items_removed = [] ∧
      (update_game_state smax gs (get_fallback_response gs input pick) input).player.inventory
        = gs.player.inventory) := by
  by_cases hmem : "Health Potion" ∈ gs.player.inventory
  · have hresp : get_fallback_response gs input pick
        = { narrative := gs.player.name ++ " drinks a health potion and feels much better!"
            location := gs.current_location
            hp_change := 20
            items_added := []
            items_removed := ["Health Potion"] } := by
      unfold get_fallback_response
      simp [hatk, hheal, hmem]
    refine ⟨fun _ => ?_, fun hn => absurd hmem hn⟩
    rw [hresp]
    exact ⟨rfl, rfl⟩
  · have hresp : get_fallback_response gs input pick
        = { narrative := "You search your belongings but find no healing items."
            location := gs.current_location
            hp_change := 0
            items_added := []
            items_removed := [] } := by
      unfold get_fallback_response
      simp [hatk, hheal, hmem]
    refine ⟨fun hyes => absurd hyes hmem, fun _ => ?_⟩
    rw [hresp]
    refine ⟨rfl, rfl, rfl, ?_⟩
    exact update_game_state_inventory_unchanged smax gs _ input rfl rfl

/-- Test state whose inventory holds a Health Potion. -/
def gsPotion : GameState :=
  { baseState with player := { baseChar with inventory := ["Health Potion", "Rope"] } }

theorem fallback_heal_witness :
    (get_fallback_response gsPotion "heal" 0).hp_change = 20 ∧
    (get_fallback_response gsPotion "heal" 0).items_removed = ["Health Potion"] ∧
    (get_fallback_response baseState "heal" 0).hp_change = 0 ∧
    (update_game_state 10 baseState (get_fallback_response baseState "heal" 0) "heal").player.inventory
      = baseState.player.inventory := by
  have h1 := fallback_heal gsPotion "heal" 0 10 (by decide) (by decide)
  have h2 := fallback_heal baseState "heal" 0 10 (by decide) (by decide)
  have m1 : "Health Potion" ∈ gsPotion.player.inventory := by decide
  have m2 : "Health Potion" ∉ baseState.player.inventory := by decide
  exact ⟨(h1.1 m1).1, (h1.1 m1).2, (h2.2 m2).1, (h2.2 m2).2.2.2⟩

theorem candidates_length_ge (cur : String) :
    4 ≤ (new_locations.filter (fun loc => loc ≠ cur)).length := by
  by_cases h : cur ∈ new_locations
  · simp only [new_locations, List.mem_cons, List.not_mem_nil, or_false] at h
    rcases h with h | h | h | h | h <;> subst h <;> decide
  · have heq : new_locations.filter (fun loc => loc ≠ cur) = new_locations := by
      apply List.filter_eq_self.mpr
      intro x hx
      exact decide_eq_true (fun e => h (e ▸ hx))
    rw [heq]
    decide

/-- C8: in fallback mode, an input matching a travel keyword and none of the
earlier-priority keywords yields `hp_change = 0` and a location drawn from
the fixed five-location pool that differs from the current location, for
every choice the random source can make. -/
theorem fallback_travel (gs : GameState) (input : String) (pick : Nat)
    (hatk : matchesAny (pyAction input) attack_words = false)
    (hheal : matchesAny (pyAction input) heal_words = false)
    (hexp : matchesAny (pyAction input) explore_words = false)
    (htrav : matchesAny (pyAction input) travel_words = true) :
    (get_fallback_response gs input pick).hp_change = 0 ∧
    (get_fallback_response gs input pick).location ∈ new_locations ∧
    (get_fallback_response gs input pick).location ≠ gs.current_location := by
  have hlen := candidates_length_ge gs.current_location
  set cands := new_locations.filter (fun loc => loc ≠ gs.current_location) with hc
  have hpos : 0 < cands.length := by omega
  have hidx : pick % cands.length < cands.length := Nat.mod_lt _ hpos
  have hhp : (get_fallback_response gs input pick).hp_change = 0 := by
    unfold get_fallback_response
    simp [hatk, hheal, hexp, htrav]
  have hloc : (get_fallback_response gs input pick).location
      = cands.getD (pick % cands.length) gs.current_location := by
    unfold get_fallback_response
    simp [hatk, hheal, hexp, htrav, hc]
  have hmemc : cands.getD (pick % cands.length) gs.current_location ∈ cands := by
    rw [List.getD_eq_getElem _ _ hidx]
    exact List.getElem_mem hidx
  have hmem2 := List.mem_filter.mp (hc ▸ hmemc)
  refine ⟨hhp, ?_, ?_⟩
  · rw [hloc]
    exact hmem2.1
  · rw [hloc]
    exact of_decide_eq_true hmem2.2

theorem fallback_travel_witness :
    (get_fallback_response baseState "go" 0).hp_change = 0 ∧
    (get_fallback_response baseState "go" 0).location ∈ new_locations ∧
    (get_fallback_response baseState "go" 0).location ≠ "Village Square" := by
  have h := fallback_travel baseState "go" 0 (by decide) (by decide) (by decide) (by decide)
  exact ⟨h.1, h.2.1, h.2.2⟩

theorem modeAfter_true (trace : List BackendOutcome) : modeAfter true trace = true := by
  induction trace with
  | nil => rfl
  | cons o rest ih =>
    simpa [modeAfter, stepMode] using ih

/-- C1: once any backend failure (bad JSON or an exception) occurs during a
session, the `fallback_mode` flag is true from then on: every later call of
`get_ai_response` answers from the fallback resolver and leaves the flag
true, whatever outcome the backend would have produced — the mode never
returns to Connected. -/
theorem fallback_mode_one_way (pre post : List BackendOutcome) (bad o : BackendOutcome)
    (gs : GameState) (input : String) (pick : Nat)
    (hbad : isBackendError bad = true) :
    modeAfter false (pre ++ bad :: post) = true ∧
    (get_ai_response (modeAfter false (pre ++ bad :: post)) o gs input pick).used_fallback = true ∧
    (get_ai_response (modeAfter false (pre ++ bad :: post)) o gs input pick).response
      = get_fallback_response gs input pick ∧
    (get_ai_response (modeAfter false (pre ++ bad :: post)) o gs input pick).fallback_mode = true := by
  have hstep : ∀ m : Bool, stepMode m bad = true := by
    intro m
    cases m <;> simp [stepMode, hbad]
  have hmode : modeAfter false (pre ++ bad :: post) = true := by
    unfold modeAfter
    rw [List.foldl_append]
    show modeAfter (stepMode (modeAfter false pre) bad) post = true
    rw [hstep]
    exact modeAfter_true post
  refine ⟨hmode, ?_, ?_, ?_⟩ <;> rw [hmode] <;> rfl

/-- Well-formed backend reply used by the C1 witness. -/
def okReply : RawReply :=
  { narrative := some "A dragon lands."
    location := some "Mountain Trail"
    hp_change := some 0
    items_added := some []
    items_removed := some [] }

theorem fallback_mode_one_way_witness :
    modeAfter false [BackendOutcome.reply okReply, BackendOutcome.badJson,
      BackendOutcome.reply okReply] = true ∧
    (get_ai_response (modeAfter false [BackendOutcome.reply okReply, BackendOutcome.badJson,
      BackendOutcome.reply okReply]) (BackendOutcome.reply okReply) baseState "look around" 0).used_fallback
      = true := by
  have h := fallback_mode_one_way [BackendOutcome.reply okReply]
    [BackendOutcome.reply okReply] BackendOutcome.badJson (BackendOutcome.reply okReply)
    baseState "look around" 0 rfl
  exact ⟨h.1, h.2.1⟩

theorem dropWhile_all_append (p : Char → Bool) (xs : List Char) (c : Char)
    (ys : List Char) (hxs : ∀ a ∈ xs, p a = true) (hc : p c = false) :
    (xs ++ c :: ys).dropWhile p = c :: ys := by
  induction xs with
  | nil => simp [List.dropWhile_cons, hc]
  | cons x t ih =>
    have hx : p x = true := hxs x (by simp)
    simp only [List.cons_append, List.dropWhile_cons, hx, if_true]
    exact ih (fun a ha => hxs a (by simp [ha]))

theorem parse_dice_notation_isSome_iff (s : String) :
    ( parse_dice_notation s).isSome = true ↔ specGrammarMatch (normalizeDice s) := by
  constructor
  · intro h
    unfold parse_dice_notation at h
    rcases hdw : (normalizeDice s).dropWhile Char.isDigit with _ | ⟨c0, r2⟩
    · simp only [hdw] at h
      simp at h
    · simp only [hdw] at h
      by_cases hc : c0 = 'd'
      · subst hc
        by_cases hsd : r2.takeWhile Char.isDigit = []
        · simp [hsd] at h
        · refine ⟨(normalizeDice s).takeWhile Char.isDigit, r2.takeWhile Char.isDigit,
            r2.dropWhile Char.isDigit, ?_, ?_, hsd, ?_⟩
          · calc normalizeDice s
                = (normalizeDice s).takeWhile Char.isDigit
                    ++ (normalizeDice s).dropWhile Char.isDigit :=
                  (List.takeWhile_append_dropWhile _ _).symm
              _ = (normalizeDice s).takeWhile Char.isDigit ++ ('d' :: r2) := by
                  rw [hdw]
              _ = (normalizeDice s).takeWhile Char.isDigit
                    ++ 'd' :: (r2.takeWhile Char.isDigit ++ r2.dropWhile Char.isDigit) := by
                  rw [List.takeWhile_append_dropWhile]
          · exact List.all_eq_true.mpr (fun x hx => List.mem_takeWhile_imp hx)
          · exact List.all_eq_true.mpr (fun x hx => List.mem_takeWhile_imp hx)
      · simp [hc] at h
  · rintro ⟨cnt, sds, rest, heq, hcnt, hne, hsds⟩
    have hdw : (normalizeDice s).dropWhile Char.isDigit = 'd' :: (sds ++ rest) := by
      rw [heq]
      exact dropWhile_all_append Char.isDigit cnt 'd' (sds ++ rest)
        (List.all_eq_true.mp hcnt) (by decide)
    have htw : (sds ++ rest).takeWhile Char.isDigit ≠ [] := by
      rcases sds with _ | ⟨a, t⟩
      · exact absurd rfl hne
      · have ha : Char.isDigit a = true :=
          List.all_eq_true.mp hsds a (by simp)
        rw [List.cons_append, List.takeWhile_cons_of_pos ha]
        simp
    unfold parse_dice_notation
    simp [hdw, htw]

/-- C4 counterexample: the parser does partial parsing — the input
`"2d6+3xyz"`, a valid notation followed by trailing garbage, is accepted
and parsed from its prefix instead of being rejected. -/
theorem parse_dice_notation_trailing_garbage :
    parse_dice_notation ("2d6+3xyz") = some (2, 6, 3) := by
  decide

/-- C4 amended: the parser fails exactly on inputs whose normalized text
(spaces removed, lowercased) does not begin with a grammar match — optional
digits, a literal d, then at least one digit; anything may trail a match
and is ignored, so a valid prefix followed by garbage parses from the
prefix.  Well-formed notations parse as the grammar prescribes. -/
theorem parse_dice_notation_amended (s : String) :
    ( parse_dice_notation s = none ↔ ¬ specGrammarMatch (normalizeDice s)) ∧
    parse_dice_notation ("3d6+2") = some (3, 6, 2) ∧
    parse_dice_notation ("1d20-1") = some (1, 20, -1) ∧
    parse_dice_notation ("D8") = some (1, 8, 0) ∧
    parse_dice_notation (" 2 d 6 + 3 ") = some (2, 6, 3) ∧
    parse_dice_notation ("xyz") = none ∧
    parse_dice_notation ("2d") = none := by
  refine ⟨?_, by decide, by decide, by decide, by decide, by decide, by decide⟩
  rw [← Option.not_isSome_iff_eq_none]
  exact not_congr (parse_dice_notation_isSome_iff s)

theorem parse_dice_notation_amended_witness :
    parse_dice_notation ("hello") = none := by
  refine (parse_dice_notation_amended "hello").1.mpr ?_
  rintro ⟨cnt, sds, rest, heq, -, -, -⟩
  have hmem : 'd' ∈ normalizeDice "hello" := by
    rw [heq]
    simp
  exact absurd hmem (by decide)

/-- C5 counterexample: calling `roll_stats` with the method string
`"standard_array"` matches no branch — the result is the empty mapping,
with no value assigned to Strength, not the standard array. -/
theorem roll_stats_standard_array_empty :
    roll_stats ("standard_array") (fun _ => 1) = [] ∧
    (roll_stats ("standard_array") (fun _ => 1)).lookup "Strength" = none := by
  constructor <;> rfl

/-- C5 amended: the method string recognized by `roll_stats` is `"array"`;
with it the generator deterministically returns 15, 14, 13, 12, 10, 8
assigned to Strength, Dexterity, Constitution, Intelligence, Wisdom,
Charisma in order, ignoring the dice source entirely, while the literal
method string `"standard_array"` yields an empty mapping. -/
theorem roll_stats_array_standard (die : Nat → Int) :
    roll_stats ("array") die
      = [("Strength", 15), ("Dexterity", 14), ("Constitution", 13),
         ("Intelligence", 12), ("Wisdom", 10), ("Charisma", 8)] ∧
    roll_stats ("standard_array") die = [] := by
  constructor <;> rfl

/-- Saved record with the default-looking hp/max_hp pair and a constitution
whose recomputed HP happens to be exactly 100 again. -/
def rec194 : CharacterRecord :=
  { name := "Tank"
    race := "Human"
    character_class := "Fighter"
    level := 1
    background := "Folk Hero"
    alignment := "Neutral Good"
    strength := 10
    dexterity := 10
    constitution := 194
    intelligence := 10
    wisdom := 10
    charisma := 10
    hp := 100
    max_hp := 100
    armor_class := 10
    proficiency_bonus := 2
    skill_proficiencies := []
    saving_throw_proficiencies := ["Strength", "Constitution"]
    inventory := ["Backpack"]
    equipment := [("armor", "Leather Armor")]
    experience_points := 0
    gold_pieces := 0 }

/-- Saved record with the default-looking hp/max_hp pair and constitution 10. -/
def rec100 : CharacterRecord :=
  { rec194 with constitution := 10 }

/-- Saved record with a non-default hp/max_hp pair. -/
def rec50 : CharacterRecord :=
  { rec194 with hp := 50, max_hp := 60, constitution := 10 }

/-- C10 counterexample: for a record carrying hp = 100 and max_hp = 100 with
constitution 194, the recomputed HP `max(1, 8 + 92)` is again 100, so the
from_dict/to_dict round-trip preserves hp and max_hp exactly, contradicting
the claim that it never does for such records. -/
theorem from_dict_roundtrip_preserved_at_194 :
    rec194.hp = 100 ∧ rec194.max_hp = 100 ∧
    ((Character.from_dict rec194).to_dict).hp = rec194.hp ∧
    ((Character.from_dict rec194).to_dict).max_hp = rec194.max_hp := by
  decide

/-- C10 amended: a character rebuilt from a record with hp = 100 and
max_hp = 100 has both replaced by `max(1, 8 + floor((constitution − 10)/2))`;
the serialization round-trip therefore fails to preserve hp and max_hp for
such records exactly when that recomputed value differs from 100
(constitution 194 and 195 are the only preserved cases), and preserves both
for every other hp/max_hp combination. -/
theorem from_dict_hp_amended (d : CharacterRecord) :
    (d.hp = 100 ∧ d.max_hp = 100 →
      (Character.from_dict d).hp = max 1 (8 + get_ability_modifier d.constitution) ∧
      (Character.from_dict d).max_hp = max 1 (8 + get_ability_modifier d.constitution)) ∧
    (¬(d.hp = 100 ∧ d.max_hp = 100) →
      ((Character.from_dict d).to_dict).hp = d.hp ∧
      ((Character.from_dict d).to_dict).max_hp = d.max_hp) ∧
    (d.hp = 100 → d.max_hp = 100 →
      max 1 (8 + get_ability_modifier d.constitution) ≠ 100 →
      ((Character.from_dict d).to_dict).hp ≠ d.hp ∧
      ((Character.from_dict d).to_dict).max_hp ≠ d.max_hp) := by
  refine ⟨?_, ?_, ?_⟩
  · rintro ⟨h1, h2⟩
    constructor <;> simp [Character.from_dict, Character.init, h1, h2]
  · intro h
    constructor <;> simp [Character.from_dict, Character.init, Character.to_dict, h]
  · intro h1 h2 h3
    constructor <;>
      simpa [Character.from_dict, Character.init, Character.to_dict, h1, h2] using h3

theorem from_dict_hp_amended_witness :
    (Character.from_dict rec100).hp = 8 ∧
    ((Character.from_dict rec50).to_dict).hp = 50 ∧
    ((Character.from_dict rec50).to_dict).max_hp = 60 ∧
    ((Character.from_dict rec100).to_dict).hp ≠ 100 := by
  have h1 := (from_dict_hp_amended rec100).1 ⟨rfl, rfl⟩
  have h2 := (from_dict_hp_amended rec50).2.1 (by decide)
  have h3 := (from_dict_hp_amended rec100).2.2 rfl rfl (by decide)
  refine ⟨?_, ?_, ?_, h3.1⟩
  · rw [h1.1]
    decide
  · rw [h2.1]
    decide
  · rw [h2.2]
    decide
